import Mathlib

/-!
Verification of the voice transport engine of `gamechat` (`src/network/src/voice.rs`).

A 32-bit float sample is modelled by its bit pattern, a natural number below 2^32;
`f32::to_ne_bytes` / `f32::from_ne_bytes` are bitwise inverses on these patterns, so
byte-level properties of the voice data path are exactly captured.  Native endianness
is fixed as least-significant-byte-first in the model; every claim is invariant under
the choice, since the same order is used on both directions of the path.
-/

/-- A socket address (`std::net::SocketAddr`), abstract: only equality matters here. -/
abbrev SocketAddr := String

/-- The bytes of `f32::to_ne_bytes` applied to a sample with bit pattern `s`
    (voice.rs line 71): four bytes, least-significant first. -/
def toNeBytes (s : Nat) : List Nat :=
  [s % 256, s / 256 % 256, s / 256 / 256 % 256, s / 256 / 256 / 256 % 256]

/-- `f32::from_ne_bytes` on one 4-byte chunk (voice.rs line 151). -/
def fromNeBytes (b0 b1 b2 b3 : Nat) : Nat :=
  b0 + 256 * (b1 + 256 * (b2 + 256 * b3))

/-- The input-callback serialization (voice.rs lines 69-73): for each sample in order,
    append its four native-endian bytes; no header, no length field. -/
def serializeFrame : List Nat → List Nat
  | [] => []
  | s :: rest => toNeBytes s ++ serializeFrame rest

/-- The receive-branch deserialization (voice.rs lines 149-153):
    `chunks_exact(4)` with `from_ne_bytes` on each complete chunk; a trailing group of
    fewer than four bytes is dropped. -/
def deserializePayload : List Nat → List Nat
  | b0 :: b1 :: b2 :: b3 :: rest => fromNeBytes b0 b1 b2 b3 :: deserializePayload rest
  | _ => []

/-- Size of the receive buffer `[0u8; 4096]` (voice.rs line 129). -/
def RECV_BUF_SIZE : Nat := 4096

/-- The full inbound processing of one datagram (voice.rs lines 129, 146-154):
    `recv_from` into a 4096-byte buffer truncates the payload to the buffer size, and the
    received prefix is deserialized chunkwise. -/
def recvProcess (payload : List Nat) : List Nat :=
  deserializePayload (payload.take RECV_BUF_SIZE)

/-- The output-stream callback (voice.rs lines 99-113).  `L` is the length of the
    output buffer `data`; `popped` is the result of the single `play_rx.try_recv()`.
    On `Ok(incoming)` the first `min(L, incoming.len())` positions are copied from the
    frame and the remainder zero-filled; on `Err` the whole buffer is zero-filled.
    The popped frame is a local value, so samples beyond `L` are dropped. -/
def outputCallback (L : Nat) (popped : Option (List Nat)) : List Nat :=
  match popped with
  | some incoming =>
      let len := min L incoming.length
      incoming.take len ++ List.replicate (L - len) 0
  | none => List.replicate L 0

/-- The caller-visible state of a `VoiceManager` (voice.rs lines 10-17):
    the bound socket, the recording flag, and the optional target address. -/
structure VoiceManager where
  socketAddr : String
  isRecording : Bool
  targetAddr : Option SocketAddr
  deriving DecidableEq, Repr

/-- `VoiceManager::new` (voice.rs lines 20-27): binds the socket, recording flag starts
    false, target address starts `None`. -/
def VoiceManager.new (bindAddr : String) : VoiceManager :=
  { socketAddr := bindAddr, isRecording := false, targetAddr := none }

/-- `VoiceManager::set_target` (voice.rs lines 29-32): always stores `Some(addr)`. -/
def VoiceManager.set_target (m : VoiceManager) (addr : SocketAddr) : VoiceManager :=
  { m with targetAddr := some addr }

/-- `VoiceManager::stop` (voice.rs lines 168-170): stores `false` into the recording
    flag and returns; nothing else is touched and nothing is waited on. -/
def VoiceManager.stop (m : VoiceManager) : VoiceManager :=
  { m with isRecording := false }

/-- The effect of one `start_audio_loop` call as seen by the caller: the state after
    the call, whether this call spawned the audio/network thread, and the returned
    `anyhow::Result<()>`. -/
structure StartEffect where
  state : VoiceManager
  spawned : Bool
  result : Except String Unit
  deriving Repr

/-- The control-plane part of `VoiceManager::start_audio_loop` (voice.rs lines 34-45,
    164-165): if the flag is already set, return `Ok(())` at once without doing
    anything; otherwise set the flag, spawn the single worker thread, and return
    `Ok(())`.  The return value never depends on what happens inside the thread. -/
def VoiceManager.start_audio_loop (m : VoiceManager) : StartEffect :=
  if m.isRecording then ⟨m, false, Except.ok ()⟩
  else ⟨{ m with isRecording := true }, true, Except.ok ()⟩

/-- The audio-environment facts the spawned thread consults: whether default devices
    exist, and whether each fallible stream-setup step succeeds. -/
structure AudioEnv where
  inputDevice : Bool
  inputConfigOk : Bool
  inputStreamOk : Bool
  inputPlayOk : Bool
  outputDevice : Bool
  outputConfigOk : Bool
  outputStreamOk : Bool
  outputPlayOk : Bool
  deriving DecidableEq, Repr

/-- How the spawned audio thread terminates (or reaches the network loop). -/
inductive ThreadOutcome where
  /-- All setup succeeded; the network loop runs. -/
  | ranLoop
  /-- A missing device: `eprintln` and a plain `return` from the thread closure. -/
  | returnedEarly
  /-- An `unwrap()` on a failed setup step: the spawned thread panics. -/
  | panicked
  deriving DecidableEq, Repr

/-- The setup section of the spawned thread (voice.rs lines 47-121), step by step:
    missing input device → early return (line 52-55); `default_input_config().unwrap()`
    (line 57), `build_input_stream(...).unwrap()` (line 64-78), `play().unwrap()`
    (line 80); then the same for output (lines 83-119). -/
def audioThreadBody (env : AudioEnv) : ThreadOutcome :=
  if env.inputDevice = false then ThreadOutcome.returnedEarly
  else if env.inputConfigOk = false then ThreadOutcome.panicked
  else if env.inputStreamOk = false then ThreadOutcome.panicked
  else if env.inputPlayOk = false then ThreadOutcome.panicked
  else if env.outputDevice = false then ThreadOutcome.returnedEarly
  else if env.outputConfigOk = false then ThreadOutcome.panicked
  else if env.outputStreamOk = false then ThreadOutcome.panicked
  else if env.outputPlayOk = false then ThreadOutcome.panicked
  else ThreadOutcome.ranLoop

/-- One `start_audio_loop` invocation together with what the spawned thread does in
    environment `env` (`none` when no thread was spawned by this call). -/
def startWithEnv (m : VoiceManager) (env : AudioEnv) :
    StartEffect × Option ThreadOutcome :=
  let e := m.start_audio_loop
  (e, if e.spawned then some (audioThreadBody env) else none)

/-- The event one iteration of the network loop's `select!` resolves to
    (voice.rs lines 136-160). -/
inductive NetEvent where
  /-- `rx.recv()` yielded a captured byte buffer. -/
  | outbound (data : List Nat)
  /-- `recv_from` returned `Ok` with the given datagram payload. -/
  | inboundOk (payload : List Nat)
  /-- `recv_from` returned `Err`. -/
  | inboundErr
  deriving DecidableEq, Repr

/-- The observable state the network loop writes to: datagrams sent on the socket and
    frames pushed onto the playback delivery queue. -/
structure LoopState where
  sent : List (SocketAddr × List Nat)
  playQueue : List (List Nat)
  deriving DecidableEq, Repr

/-- The body of one `select!` arm (voice.rs lines 136-160): an outbound buffer is sent
    as one datagram iff a target is set, and dropped otherwise; an inbound payload is
    deserialized and pushed onto the playback queue; a receive error does nothing. -/
def processEvent (target : Option SocketAddr) (ev : NetEvent) (st : LoopState) :
    LoopState :=
  match ev with
  | NetEvent.outbound data =>
      match target with
      | some addr => { st with sent := st.sent ++ [(addr, data)] }
      | none => st
  | NetEvent.inboundOk payload =>
      { st with playQueue := st.playQueue ++ [recvProcess payload] }
  | NetEvent.inboundErr => st

/-- One iteration of the network loop (voice.rs lines 131-161): the recording flag is
    read first and the loop breaks when it is false; otherwise the resolved event is
    processed and the loop continues.  The returned boolean says whether the loop
    continues to the next iteration. -/
def loopIter (flag : Bool) (target : Option SocketAddr) (ev : NetEvent)
    (st : LoopState) : LoopState × Bool :=
  if flag then (processEvent target ev st, true) else (st, false)

/-- A control-surface operation on the engine state. -/
inductive ControlOp where
  | setTargetOp (addr : SocketAddr)
  | startOp
  | stopOp
  deriving DecidableEq, Repr

/-- Application of one control-surface operation to the caller-visible state. -/
def applyOp (m : VoiceManager) (op : ControlOp) : VoiceManager :=
  match op with
  | ControlOp.setTargetOp addr => m.set_target addr
  | ControlOp.startOp => m.start_audio_loop.state
  | ControlOp.stopOp => m.stop

/-- The device-enumeration environment: `host.input_devices()` / `host.output_devices()`
    each either fail or yield a list of devices, each of which may fail to report a
    name (`d.name().ok()` is `none` on failure). -/
structure HostEnv where
  inputDevices : Except Unit (List (Option String))
  outputDevices : Except Unit (List (Option String))

/-- `VoiceManager::get_input_devices` (voice.rs lines 172-178): on successful
    enumeration, the names that resolved, in order; on failure, the one placeholder. -/
def get_input_devices (env : HostEnv) : List String :=
  match env.inputDevices with
  | Except.ok devices => devices.filterMap id
  | Except.error _ => ["Default Input"]

/-- `VoiceManager::get_output_devices` (voice.rs lines 180-186): same shape as the
    input direction. -/
def get_output_devices (env : HostEnv) : List String :=
  match env.outputDevices with
  | Except.ok devices => devices.filterMap id
  | Except.error _ => ["Default Output"]

/-! ## Helper lemmas about the byte-level data path -/

/-- Reassembling the four native-endian bytes of a 32-bit pattern gives it back. -/
theorem fromNeBytes_of_bytes (s : Nat) (h : s < 2 ^ 32) :
    fromNeBytes (s % 256) (s / 256 % 256) (s / 256 / 256 % 256)
      (s / 256 / 256 / 256 % 256) = s := by
  unfold fromNeBytes
  omega

/-- Chunkwise deserialization is a left inverse of the capture serialization on frames
    of genuine 32-bit patterns. -/
theorem deserializePayload_serializeFrame (frame : List Nat)
    (h : ∀ s ∈ frame, s < 2 ^ 32) :
    deserializePayload (serializeFrame frame) = frame := by
  induction frame with
  | nil => rfl
  | cons s rest ih =>
      have hs : s < 2 ^ 32 := h s (List.mem_cons_self _ _)
      have hr : ∀ x ∈ rest, x < 2 ^ 32 := fun x hx => h x (List.mem_cons_of_mem _ hx)
      simp [serializeFrame, toNeBytes, deserializePayload, ih hr,
        fromNeBytes_of_bytes s hs]

/-- Serialization produces exactly four bytes per sample. -/
theorem serializeFrame_length (frame : List Nat) :
    (serializeFrame frame).length = 4 * frame.length := by
  induction frame with
  | nil => rfl
  | cons s rest ih =>
      simp only [serializeFrame, toNeBytes, List.length_append, List.length_cons,
        List.length_nil, ih]
      omega

/-- Chunkwise deserialization yields one sample per complete 4-byte group. -/
theorem deserializePayload_length :
    ∀ bs : List Nat, (deserializePayload bs).length = bs.length / 4
  | [] => by simp [deserializePayload]
  | [_] => by simp [deserializePayload]
  | [_, _] => by simp [deserializePayload]
  | [_, _, _] => by simp [deserializePayload]
  | _ :: _ :: _ :: _ :: rest => by
      have ih := deserializePayload_length rest
      simp only [deserializePayload, List.length_cons, ih]
      omega

/-- A trailing group of fewer than four bytes after complete groups is discarded. -/
theorem deserializePayload_trailing :
    ∀ (complete trailing : List Nat), complete.length % 4 = 0 → trailing.length < 4 →
      deserializePayload (complete ++ trailing) = deserializePayload complete
  | [], trailing, _, ht => by
      match trailing, ht with
      | [], _ => rfl
      | [_], _ => rfl
      | [_, _], _ => rfl
      | [_, _, _], _ => rfl
      | _ :: _ :: _ :: _ :: _, ht => simp at ht; omega
  | [_], _, hc, _ => by simp at hc
  | [_, _], _, hc, _ => by simp at hc
  | [_, _, _], _, hc, _ => by simp at hc
  | a :: b :: c :: d :: rest, trailing, hc, ht => by
      have hc' : rest.length % 4 = 0 := by
        simp only [List.length_cons] at hc
        omega
      have ih := deserializePayload_trailing rest trailing hc' ht
      simp [deserializePayload, ih]

/-! ## Claim theorems -/

/-- Claim C1: round-trip of the voice data path.  Serializing any frame of 32-bit
    samples as the capture callback does and deserializing the payload as the receive
    path does (grouping into complete 4-byte chunks) returns exactly the original
    samples; moreover for frames that fit the 4096-byte receive buffer (at most 1024
    samples) the full inbound processing, truncation included, also returns them. -/
theorem claim_voice_roundtrip (frame : List Nat) (h : ∀ s ∈ frame, s < 2 ^ 32) :
    deserializePayload (serializeFrame frame) = frame ∧
    (frame.length ≤ 1024 → recvProcess (serializeFrame frame) = frame) := by
  refine ⟨deserializePayload_serializeFrame frame h, fun hlen => ?_⟩
  have hfit : (serializeFrame frame).length ≤ RECV_BUF_SIZE := by
    rw [serializeFrame_length]
    unfold RECV_BUF_SIZE
    omega
  rw [recvProcess, List.take_of_length_le hfit]
  exact deserializePayload_serializeFrame frame h

/-- Closed witness for C1 at a concrete three-sample frame. -/
theorem claim_voice_roundtrip_witness :
    deserializePayload (serializeFrame [0, 1, 4294967295]) = [0, 1, 4294967295] ∧
    recvProcess (serializeFrame [0, 1, 4294967295]) = [0, 1, 4294967295] := by
  have h := claim_voice_roundtrip [0, 1, 4294967295] (by decide)
  exact ⟨h.1, h.2 (by decide)⟩

/-- Claim C2 evaluated on the code at its failing input: with an input device present
    but an invalid default input configuration, `start_audio_loop` returns `Ok(())`
    to the caller while the spawned thread panics on the `unwrap`, so the stream-init
    failure is never reported as a failure outcome of `start`.  The same holds when
    stream construction or `play` fails instead of the configuration query. -/
theorem claim_stream_failure_unreported :
    (startWithEnv (VoiceManager.new "127.0.0.1:0")
        ⟨true, false, true, true, true, true, true, true⟩).1.result = Except.ok () ∧
    (startWithEnv (VoiceManager.new "127.0.0.1:0")
        ⟨true, false, true, true, true, true, true, true⟩).2 =
      some ThreadOutcome.panicked ∧
    (startWithEnv (VoiceManager.new "127.0.0.1:0")
        ⟨true, true, false, true, true, true, true, true⟩).1.result = Except.ok () ∧
    (startWithEnv (VoiceManager.new "127.0.0.1:0")
        ⟨true, true, false, true, true, true, true, true⟩).2 =
      some ThreadOutcome.panicked := by
  exact ⟨rfl, rfl, rfl, rfl⟩

/-- Counterexample to claim C3: when enumeration succeeds but yields no devices, both
    device lists are empty, not a single-element placeholder. -/
theorem counterexample_device_enumeration_empty :
    get_input_devices ⟨Except.ok [], Except.ok []⟩ = [] ∧
    get_output_devices ⟨Except.ok [], Except.ok []⟩ = [] :=
  ⟨rfl, rfl⟩

/-- Claim C3 as amended: device enumeration never fails; on enumeration failure it
    returns exactly the one placeholder entry for its direction; on successful
    enumeration it returns, in order, the names of the devices whose name lookup
    succeeded — a list that may be empty when no real devices are present. -/
theorem claim_device_enumeration (env : HostEnv) :
    (∀ e, env.inputDevices = Except.error e → get_input_devices env = ["Default Input"]) ∧
    (∀ ds, env.inputDevices = Except.ok ds → get_input_devices env = ds.filterMap id) ∧
    (∀ e, env.outputDevices = Except.error e →
        get_output_devices env = ["Default Output"]) ∧
    (∀ ds, env.outputDevices = Except.ok ds →
        get_output_devices env = ds.filterMap id) := by
  refine ⟨fun e he => ?_, fun ds hds => ?_, fun e he => ?_, fun ds hds => ?_⟩
  · simp [get_input_devices, he]
  · simp [get_input_devices, hds]
  · simp [get_output_devices, he]
  · simp [get_output_devices, hds]

/-- Closed witness for the amended C3: one failing direction, one succeeding direction
    with a device whose name lookup failed. -/
theorem claim_device_enumeration_witness :
    get_input_devices ⟨Except.error (), Except.ok [some "Speakers", none]⟩ =
      ["Default Input"] ∧
    get_output_devices ⟨Except.error (), Except.ok [some "Speakers", none]⟩ =
      ["Speakers"] := by
  refine ⟨(claim_device_enumeration _).1 () rfl, ?_⟩
  rw [(claim_device_enumeration ⟨Except.error (), Except.ok [some "Speakers", none]⟩).2.2.2
    [some "Speakers", none] rfl]
  rfl

/-- Claim C4: the output callback produces a buffer of exactly the requested length;
    from a popped frame it copies the first `min(L, M)` samples and zero-fills the
    rest (samples of the frame beyond `L` appear nowhere); with nothing popped the
    whole buffer is zero. -/
theorem claim_output_callback (L : Nat) (popped : Option (List Nat)) :
    (outputCallback L popped).length = L ∧
    (∀ inc, popped = some inc →
      (outputCallback L popped).take (min L inc.length) = inc.take (min L inc.length) ∧
      (outputCallback L popped).drop (min L inc.length) =
        List.replicate (L - min L inc.length) 0) ∧
    (popped = none → outputCallback L popped = List.replicate L 0) := by
  refine ⟨?_, fun inc h => ?_, fun h => by simp [h, outputCallback]⟩
  · cases popped with
    | none => simp [outputCallback]
    | some inc =>
        simp [outputCallback, List.length_take]
  · subst h
    have hlen : (inc.take (min L inc.length)).length = min L inc.length := by
      rw [List.length_take]
      omega
    constructor
    · simp only [outputCallback]
      rw [List.take_append_of_le_length (by omega), List.take_take]
      simp
    · simp only [outputCallback]
      rw [List.drop_append_of_le_length (by omega),
        List.drop_eq_nil_of_le (by omega)]
      simp

/-- Closed witness for C4: a three-slot buffer fed a five-sample frame keeps the first
    three samples, and an empty queue yields silence. -/
theorem claim_output_callback_witness :
    (outputCallback 3 (some [5, 6, 7, 8, 9])).take (min 3 5) = [5, 6, 7, 8, 9].take (min 3 5) ∧
    outputCallback 2 none = List.replicate 2 0 :=
  ⟨((claim_output_callback 3 (some [5, 6, 7, 8, 9])).2.1 [5, 6, 7, 8, 9] rfl).1,
   (claim_output_callback 2 none).2.2 rfl⟩

/-- Claim C5: `start_audio_loop` is idempotent.  On an already-running engine it
    changes nothing, spawns nothing and returns `Ok(())`; and whatever the starting
    state, the second of two consecutive calls spawns no thread, changes no state and
    returns `Ok(())`, so at most one worker is ever spawned per running engine. -/
theorem claim_start_idempotent (m : VoiceManager) :
    (m.isRecording = true → m.start_audio_loop = ⟨m, false, Except.ok ()⟩) ∧
    m.start_audio_loop.state.start_audio_loop.spawned = false ∧
    m.start_audio_loop.state.start_audio_loop.state = m.start_audio_loop.state ∧
    m.start_audio_loop.state.start_audio_loop.result = Except.ok () := by
  cases h : m.isRecording <;>
    simp [VoiceManager.start_audio_loop, h]

/-- Closed witness for C5: a second start on a freshly started engine is inert, and a
    start on a running engine returns its state untouched with `Ok(())`. -/
theorem claim_start_idempotent_witness :
    ((VoiceManager.new "a").start_audio_loop.state.start_audio_loop.spawned = false) ∧
    (VoiceManager.mk "a" true (some "t")).start_audio_loop =
      ⟨VoiceManager.mk "a" true (some "t"), false, Except.ok ()⟩ :=
  ⟨(claim_start_idempotent (VoiceManager.new "a")).2.1,
   (claim_start_idempotent (VoiceManager.mk "a" true (some "t"))).1 rfl⟩

/-- Claim C6: in a running loop iteration that resolves to an outbound buffer, a set
    target yields exactly one datagram appended to the send trace, with the playback
    queue untouched; an unset target leaves the whole state unchanged, with no send
    and no error, and the loop continues either way. -/
theorem claim_send_branch (target : Option SocketAddr) (data : List Nat)
    (st : LoopState) :
    (∀ addr, target = some addr →
        loopIter true target (NetEvent.outbound data) st =
          ({ st with sent := st.sent ++ [(addr, data)] }, true)) ∧
    (target = none → loopIter true target (NetEvent.outbound data) st = (st, true)) := by
  constructor
  · intro addr h
    subst h
    simp [loopIter, processEvent]
  · intro h
    subst h
    simp [loopIter, processEvent]

/-- Closed witness for C6: one concrete iteration with a target and one without. -/
theorem claim_send_branch_witness :
    loopIter true (some "peer") (NetEvent.outbound [1, 2]) ⟨[], []⟩ =
      (⟨[("peer", [1, 2])], []⟩, true) ∧
    loopIter true none (NetEvent.outbound [1, 2]) ⟨[], []⟩ = (⟨[], []⟩, true) :=
  ⟨(claim_send_branch (some "peer") [1, 2] ⟨[], []⟩).1 "peer" rfl,
   (claim_send_branch none [1, 2] ⟨[], []⟩).2 rfl⟩

/-- Claim C7: a received datagram of payload length `len` becomes a frame of exactly
    `min(len, 4096) / 4` samples — `⌊len / 4⌋` whenever the payload fits the 4096-byte
    receive buffer; a trailing partial group of fewer than four bytes is discarded;
    an oversized payload is truncated to the buffer, i.e. to 1024 samples, which is
    its last complete 4-byte group boundary. -/
theorem claim_recv_framing (payload : List Nat) :
    (recvProcess payload).length = min payload.length RECV_BUF_SIZE / 4 ∧
    (payload.length ≤ RECV_BUF_SIZE → (recvProcess payload).length = payload.length / 4) ∧
    (∀ complete trailing, payload = complete ++ trailing → complete.length % 4 = 0 →
        trailing.length < 4 → payload.length ≤ RECV_BUF_SIZE →
        recvProcess payload = deserializePayload complete) ∧
    (RECV_BUF_SIZE ≤ payload.length → (recvProcess payload).length = 1024) := by
  have hlen : (recvProcess payload).length = min payload.length RECV_BUF_SIZE / 4 := by
    rw [recvProcess, deserializePayload_length, List.length_take]
    omega
  refine ⟨hlen, fun hfit => ?_, fun complete trailing hsplit hc ht hfit => ?_, fun hbig => ?_⟩
  · rw [hlen]
    omega
  · subst hsplit
    rw [recvProcess, List.take_of_length_le hfit]
    exact deserializePayload_trailing complete trailing hc ht
  · rw [hlen]
    unfold RECV_BUF_SIZE at hbig ⊢
    omega

/-- Closed witness for C7: a six-byte payload yields one sample and drops the two
    trailing bytes. -/
theorem claim_recv_framing_witness :
    (recvProcess [1, 2, 3, 4, 5, 6]).length = 6 / 4 ∧
    recvProcess [1, 2, 3, 4, 5, 6] = deserializePayload [1, 2, 3, 4] :=
  ⟨(claim_recv_framing [1, 2, 3, 4, 5, 6]).2.1 (by decide),
   (claim_recv_framing [1, 2, 3, 4, 5, 6]).2.2.1 [1, 2, 3, 4] [5, 6] rfl
     (by decide) (by decide) (by decide)⟩

/-- Claim C8: an iteration resolving to a receive error leaves the loop state exactly
    unchanged — nothing is pushed to the playback queue, nothing is sent — and the
    loop continues; for every event, the loop continues exactly when the recording
    flag read at the top of the iteration is true, so only the flag ends the loop. -/
theorem claim_recv_error_keeps_loop (flag : Bool) (target : Option SocketAddr)
    (st : LoopState) :
    loopIter flag target NetEvent.inboundErr st = (st, flag) ∧
    (∀ ev, (loopIter flag target ev st).2 = flag) := by
  constructor
  · cases flag <;> simp [loopIter, processEvent]
  · intro ev
    cases flag <;> simp [loopIter]

/-- Claim C9: `stop` only clears the recording flag — socket binding and target
    address are untouched — it is idempotent, and a loop iteration that reads the
    flag as false exits at once without touching the loop state. -/
theorem claim_stop_frame (m : VoiceManager) :
    m.stop.isRecording = false ∧
    m.stop.targetAddr = m.targetAddr ∧
    m.stop.socketAddr = m.socketAddr ∧
    m.stop.stop = m.stop ∧
    (∀ (target : Option SocketAddr) (ev : NetEvent) (st : LoopState),
        loopIter false target ev st = (st, false)) := by
  refine ⟨rfl, rfl, rfl, rfl, fun target ev st => ?_⟩
  simp [loopIter]

/-- Every control-surface operation preserves a set target address: `set_target`
    writes `Some`, and neither `start_audio_loop` nor `stop` touches the field. -/
theorem applyOp_preserves_target (m : VoiceManager) (op : ControlOp)
    (h : m.targetAddr.isSome = true) : (applyOp m op).targetAddr.isSome = true := by
  cases op with
  | setTargetOp addr => simp [applyOp, VoiceManager.set_target]
  | startOp =>
      cases hr : m.isRecording <;>
        simp [applyOp, VoiceManager.start_audio_loop, hr, h]
  | stopOp => simpa [applyOp, VoiceManager.stop] using h

/-- Claim C10: the target address starts unset at creation, `set_target` always
    stores `Some`, and once it is set, no sequence of control-surface operations
    (`set_target`, `start_audio_loop`, `stop`) can ever return it to the unset
    state. -/
theorem claim_target_never_cleared (bindAddr : String) (addr : SocketAddr)
    (m : VoiceManager) (ops : List ControlOp) :
    (VoiceManager.new bindAddr).targetAddr = none ∧
    (m.set_target addr).targetAddr = some addr ∧
    (m.targetAddr.isSome = true → (ops.foldl applyOp m).targetAddr.isSome = true) := by
  refine ⟨rfl, rfl, fun h => ?_⟩
  induction ops generalizing m with
  | nil => exact h
  | cons op rest ih => exact ih _ (applyOp_preserves_target m op h)

/-- Closed witness for C10: after setting a target, a stop / start / stop sequence
    still observes a set target. -/
theorem claim_target_never_cleared_witness :
    ([ControlOp.stopOp, ControlOp.startOp, ControlOp.stopOp].foldl applyOp
        (VoiceManager.mk "b" false (some "t"))).targetAddr.isSome = true :=
  (claim_target_never_cleared "b" "t" (VoiceManager.mk "b" false (some "t"))
    [ControlOp.stopOp, ControlOp.startOp, ControlOp.stopOp]).2.2 rfl
